import Mathlib

/-!
Verification of the venue availability / aggregation backend.

Shallow embedding of the venue backend's core logic:

* `VenueHelperService` (availability resolver): `convertDBHoursToPeriods`,
  `isWithinPeriods`, the 8 AM Eastern daily reset boundary, and
  `getVenueStatus` (file `venue-helper.service.ts`, current revision).
* `VenuePublicService.getVenuesByLocation` (aggregation pipeline):
  internal/external dedup, category whitelist, distance sort, pagination.
* `VenueVoteService.voteForVenue`: lazy promotion of external venues,
  admin-gated proximity check (10 miles) and cooldown check (30 seconds),
  append-only vote ledger.

Conventions of the embedding:

* Clock values are injected as arguments (the services read wall-clock
  time via `DateTime.now()`); `nowEt` is the current instant expressed in
  minutes on the America/New_York civil timeline, and the venue-local
  "now" is passed as a Google-style weekday (0 = Sunday .. 6 = Saturday)
  plus an HHMM time-of-day numeral.  The source compares fixed-width
  "HHmm" digit strings lexicographically, which coincides with numeric
  comparison of the HHMM numerals used here.
* Vote timestamps (`createdAt`) live on the same minute timeline as
  `nowEt` for the resolver, and on a millisecond timeline for the vote
  service (the source compares JS `Date` values, i.e. epoch instants).
* Distances are carried as already-computed rationals: the Haversine
  formula itself uses floating-point trigonometry and none of the claims
  constrain its value, only how the computed number is used.
-/

namespace VenueBackend

/-- The status enum `VenueStatusEnum` from `get-venues.dto.ts`. -/
inductive VenueStatusEnum where
  | OPEN
  | CLOSED
  deriving DecidableEq, Repr

/-- One row of the `votes` table, as seen by the resolver:
`isOpen` plus the server-assigned `createdAt` (minutes on the ET timeline). -/
structure VoteV where
  isOpen : Bool
  createdAt : Int
  deriving DecidableEq, Repr

/-- The slice of a `venue` row that `getVenueStatus` reads: declared hours
(`startTime`/`endTime` as HHMM numerals, `none` when the column is null),
the `closedDays` day-name strings, and the included `votes`. -/
structure Venue where
  startTime : Option Nat
  endTime : Option Nat
  closedDays : List String
  votes : List VoteV
  deriving DecidableEq, Repr

/-- A Google-style opening period: an open day/time and an optional
close day/time, as produced by `convertDBHoursToPeriods`. -/
structure DayTime where
  day : Nat
  time : Nat
  deriving DecidableEq, Repr

structure Period where
  open_ : DayTime
  close : Option DayTime
  deriving DecidableEq, Repr

/-- The `dayMapping` record of `convertDBHoursToPeriods`: day-name →
Google weekday number; unknown names map to `undefined` (here `none`),
which the JS `Set.has(day)` lookup can never match. -/
def dayMapping : String → Option Nat
  | "sunday" => some 0
  | "monday" => some 1
  | "tuesday" => some 2
  | "wednesday" => some 3
  | "thursday" => some 4
  | "friday" => some 5
  | "saturday" => some 6
  | _ => none

/-- Translation of `VenueHelperService.convertDBHoursToPeriods`: no declared
`startTime`/`endTime` yields the empty period list; otherwise one period
per weekday not in the closed set, wrapping the close day to the next
weekday when the start string compares greater than the end string. -/
def convertDBHoursToPeriods (venue : Venue) : List Period :=
  match venue.startTime, venue.endTime with
  | some startTimeStr, some endTimeStr =>
    let closedDaysSet := venue.closedDays.filterMap (fun d => dayMapping d.toLower)
    ([0, 1, 2, 3, 4, 5, 6].filter (fun d => !(closedDaysSet.contains d))).map
      (fun day =>
        let closeDay := if endTimeStr < startTimeStr then (day + 1) % 7 else day
        { open_ := ⟨day, startTimeStr⟩, close := some ⟨closeDay, endTimeStr⟩ })
  | _, _ => []

/-- Translation of `VenueHelperService.isWithinPeriods`: scans the periods in order; a
period with no close is an immediate "open 24/7" hit; a same-day period
matches when today is its day and the time lies in [open, close]; a
cross-day period matches on its open day after the open time or on its
close day before the close time.  The empty list yields `false`. -/
def isWithinPeriods (periods : List Period) (currentDay : Nat) (currentTime : Nat) : Bool :=
  match periods with
  | [] => false
  | period :: rest =>
    match period.close with
    | none => true
    | some close =>
      if period.open_.day == close.day then
        if currentDay == period.open_.day
            && period.open_.time ≤ currentTime && currentTime ≤ close.time then
          true
        else
          isWithinPeriods rest currentDay currentTime
      else
        if (currentDay == period.open_.day && period.open_.time ≤ currentTime)
            || (currentDay == close.day && currentTime ≤ close.time) then
          true
        else
          isWithinPeriods rest currentDay currentTime

/-- The daily reset boundary of `getVenueStatus`: "now" in
America/New_York with the time set to 08:00 (minute 480 of the civil
day), minus one day when "now" precedes that instant. -/
def voteDayStart (nowEt : Int) : Int :=
  let todayReset := nowEt - nowEt % 1440 + 480
  if nowEt < todayReset then todayReset - 1440 else todayReset

/-- The votes counted toward today's tally: `createdAt ≥ voteDayStart`. -/
def todayVotes (venue : Venue) (nowEt : Int) : List VoteV :=
  venue.votes.filter (fun v => voteDayStart nowEt ≤ v.createdAt)

/-- Translation of `VenueHelperService.getVenueStatus` (venue found), with the two
clock readings injected: the venue-local weekday/time used by the hours
gate and the ET instant used by the reset boundary.  Strict hours first
(failure is unconditional CLOSED), then the vote tally since the
boundary with the `openVotes >= closedVotes` tie-break, defaulting to
OPEN when within hours with no votes. -/
def getVenueStatus (venue : Venue) (currentDay : Nat) (currentTime : Nat)
    (nowEt : Int) : VenueStatusEnum :=
  let periods := convertDBHoursToPeriods venue
  let isStrictlyOpen := isWithinPeriods periods currentDay currentTime
  if !isStrictlyOpen then
    VenueStatusEnum.CLOSED
  else
    let today := todayVotes venue nowEt
    if today.length > 0 then
      let openVotes := (today.filter (fun v => v.isOpen)).length
      let closedVotes := (today.filter (fun v => !v.isOpen)).length
      if closedVotes ≤ openVotes then VenueStatusEnum.OPEN else VenueStatusEnum.CLOSED
    else
      VenueStatusEnum.OPEN

/-! ## Aggregation pipeline (`VenuePublicService.getVenuesByLocation`)

The pipeline is modelled from the point where both candidate lists are in
hand (internal venues from the store, cached external places): dedup by
external identifier, transformation, category whitelist, merge, distance
sort, pagination.  Each item carries the fields the invariants observe
(identifier, category, distance, provenance); per-item enrichment that no
claim mentions (names, captions, vote statistics) is projected away. -/

/-- Provenance tag of a merged response item (`source` field). -/
inductive Source where
  | database
  | google
  deriving DecidableEq, Repr

/-- An internal venue row as the aggregation reads it: optional unique
`googlePlaceId`, its `catgegory` column (sic — the source misspells it),
and the already-computed great-circle distance from the query point. -/
structure DbVenue where
  id : String
  googlePlaceId : Option String
  catgegory : String
  distance : Int
  deriving DecidableEq, Repr

/-- A cached external place snapshot: provider `placeId`, derived
category, and the computed distance from the query point. -/
structure GPlace where
  placeId : String
  category : String
  distance : Int
  deriving DecidableEq, Repr

/-- One item of the merged response list. -/
structure VenueItem where
  gid : Option String
  category : String
  distance : Int
  source : Source
  deriving DecidableEq, Repr

/-- Step 3 of the pipeline: an internal venue becomes a response item
with `source: 'database'`, keeping its identifier and category. -/
def processDbVenue (v : DbVenue) : VenueItem :=
  { gid := v.googlePlaceId, category := v.catgegory, distance := v.distance,
    source := Source.database }

/-- Translation of `VenueHelperService.transformGooglePlaceToVenue` (projected): an
external place becomes a response item with `source: 'google'` and
`googlePlaceId` set to its provider identifier. -/
def transformGooglePlaceToVenue (p : GPlace) : VenueItem :=
  { gid := some p.placeId, category := p.category, distance := p.distance,
    source := Source.google }

/-- The fixed category whitelist applied to external venues (step 5). -/
def allowedCategories : List String :=
  ["NIGHT CLUB", "BAR", "LOUNGE", "SPORTS BAR", "HOTEL BAR"]

/-- Steps 4–5: the external identifiers already present among internal
venues, used to drop colliding cached snapshots. -/
def dbGooglePlaceIds (dbVenues : List DbVenue) : List String :=
  (dbVenues.filter (fun v => v.googlePlaceId.isSome)).filterMap (fun v => v.googlePlaceId)

/-- Steps 3–6 of `getVenuesByLocation`: process internal venues, drop
cached external snapshots whose identifier collides with an internal
venue, transform the survivors, keep only whitelisted categories, and
concatenate internal-first. -/
def mergedVenues (dbVenues : List DbVenue) (googlePlaces : List GPlace) : List VenueItem :=
  let processedDbVenues := dbVenues.map processDbVenue
  let ids := dbGooglePlaceIds dbVenues
  let googleVenuesRaw :=
    (googlePlaces.filter (fun place => !(ids.contains place.placeId))).map
      transformGooglePlaceToVenue
  let googleVenues := googleVenuesRaw.filter (fun v => allowedCategories.contains v.category)
  processedDbVenues ++ googleVenues

/-- Steps 6–7: sort the merged list ascending by distance and slice the
requested page (`slice(skip, skip + limit)`). -/
def getVenuesByLocation (dbVenues : List DbVenue) (googlePlaces : List GPlace)
    (page limit : Nat) : List VenueItem :=
  let allVenues := (mergedVenues dbVenues googlePlaces).mergeSort
    (fun a b => a.distance ≤ b.distance)
  (allVenues.drop ((page - 1) * limit)).take limit

/-! ## Vote submission / lazy promotion (`VenueVoteService.voteForVenue`)

The vote flow (current revision: `getOrCreateVenue`,
`validateUserProximity`, `checkVoteCooldown`, then the vote insert) is
modelled as explicit state passing over the venue table and the vote
ledger.  Distances (in miles) enter as the result of an abstract distance
function (floating-point Haversine elided); timestamps are epoch
milliseconds.  The `adminSetting` row read by `findFirstOrThrow` is
injected as an argument; `getCachedPlaceById` is modelled as an
identifier-indexed lookup into the given cache contents (its internal
grid-fetch fallback is behind the same interface).  The promotion-time
image fetch is non-fatal and, like the promoted row's `source`,
`operatingHours` and image fields, is not observed by any claim, so the
promoted row is projected to the shared `VenueRec` fields.  The JS
`venueId.replace('google_', '')` replaces the first occurrence of the
marker, which on an id that starts with `google_` is exactly dropping
that marker. -/

/-- The error taxonomy of `voteForVenue`: venue not found (404), outside
the proximity radius (403, carrying the measured distance in miles),
inside the cooldown window (429, carrying the remaining wait in
seconds). -/
inductive VoteError where
  | notFound
  | proximity (distanceMiles : ℚ)
  | cooldown (secondsLeft : Int)
  deriving DecidableEq, Repr

/-- HTTP status class of each rejection. -/
def VoteError.statusCode : VoteError → Nat
  | .notFound => 404
  | .proximity _ => 403
  | .cooldown _ => 429

/-- One row of the `votes` table as the vote service writes it. -/
structure VoteRow where
  userId : String
  venueId : String
  isOpen : Bool
  createdAt : Int
  deriving DecidableEq, Repr

/-- An internal venue row as the vote service reads/creates it. -/
structure VenueRec where
  id : String
  name : String
  googlePlaceId : Option String
  catgegory : String
  subcategory : String
  location : String
  latitude : ℚ
  longitude : ℚ
  deriving DecidableEq, Repr

/-- A cached external place as returned by `getCachedPlaceById`. -/
structure CachedPlace where
  placeId : String
  name : String
  category : String
  subcategory : String
  location : String
  latitude : ℚ
  longitude : ℚ
  deriving DecidableEq, Repr

/-- Marker that tags an external venue id (`google_<placeId>`). -/
def googleIdTag : String := "google_"

/-- The test `venueId.startsWith('google_')`: the id is tagged as
external when its first characters are the marker. -/
def isGoogleVenueId (venueId : String) : Bool :=
  venueId.take googleIdTag.length == googleIdTag

/-- The derivation `venueId.replace('google_', '')`: JS replaces the
first occurrence of the marker, which on a tagged id drops the marker. -/
def stripGoogleTag (venueId : String) : String :=
  venueId.drop googleIdTag.length

/-- The `adminSetting` row: the operator-tunable policy switches read by
`voteForVenue` before the proximity and cooldown checks. -/
structure AdminSetting where
  shouldValidateLocation : Bool
  shouldValidateTime : Bool
  deriving DecidableEq, Repr

/-- The proximity radius `MAX_DISTANCE_MILES = 10`. -/
def MAX_DISTANCE_MILES : ℚ := mkRat 10 1

/-- The cooldown window `VOTE_COOLDOWN_MS = 30 * 1000` (30 seconds). -/
def VOTE_COOLDOWN_MS : Int := 30 * 1000

/-- `Math.ceil(a / b)` on integers (b > 0): negated floor of the
negation, matching JS real division followed by `Math.ceil`. -/
def ceilOfDiv (a b : Int) : Int := -((-a).ediv b)

/-- The remaining-wait computation of the 429 rejection:
`Math.ceil((createdAt + VOTE_COOLDOWN_MS - now) / 1000)` seconds. -/
def timeLeftSeconds (createdAt now : Int) : Int :=
  ceilOfDiv (createdAt + VOTE_COOLDOWN_MS - now) 1000

/-- The venue row created by `createVenueFromGooglePlace` on promotion of
a cached external place (projected to the observed fields). -/
def promotedVenue (freshId : String) (gp : CachedPlace) : VenueRec :=
  { id := freshId, name := gp.name, googlePlaceId := some gp.placeId,
    catgegory := gp.category, subcategory := gp.subcategory,
    location := gp.location, latitude := gp.latitude, longitude := gp.longitude }

/-- The tail of `voteForVenue` once `getOrCreateVenue` has resolved (and
possibly promoted) the venue: `validateUserProximity` when
`shouldValidateLocation` (reject when the distance in miles exceeds the
radius), `checkVoteCooldown` when `shouldValidateTime` (reject when the
same user has a vote on the venue with `createdAt ≥ now − 30 s`,
reporting the remaining seconds), then the append-only vote insert.
Returns the (possibly grown) venue table, the (possibly grown) ledger,
and the rejection if any; a promotion that already happened persists even
when the vote is rejected, exactly as the sequential database writes
do. -/
def proceedVote (calcDist : ℚ → ℚ → ℚ → ℚ → ℚ) (adminSetting : AdminSetting)
    (venues' : List VenueRec) (votes : List VoteRow) (userId : String)
    (dtoIsOpen : Bool) (dtoLat dtoLng : ℚ) (now : Int) (venue : VenueRec) :
    List VenueRec × List VoteRow × Option VoteError :=
  let distance := calcDist dtoLat dtoLng venue.latitude venue.longitude
  if adminSetting.shouldValidateLocation && decide (MAX_DISTANCE_MILES < distance) then
    (venues', votes, some (VoteError.proximity distance))
  else if adminSetting.shouldValidateTime then
    match votes.find? (fun v => v.userId == userId && v.venueId == venue.id
        && decide (now - VOTE_COOLDOWN_MS ≤ v.createdAt)) with
    | some recentVote =>
      (venues', votes, some (VoteError.cooldown (timeLeftSeconds recentVote.createdAt now)))
    | none =>
      (venues', votes ++ [⟨userId, venue.id, dtoIsOpen, now⟩], none)
  else
    (venues', votes ++ [⟨userId, venue.id, dtoIsOpen, now⟩], none)

/-- `VenueVoteService.voteForVenue`: `getOrCreateVenue` resolves the
venue id — for a `google_`-tagged id, first the unique `googlePlaceId`
lookup, then the cache with lazy promotion; for a plain id, the
primary-key lookup — and the flow continues with the admin-gated
proximity and cooldown checks and the vote insert. -/
def voteForVenue (calcDist : ℚ → ℚ → ℚ → ℚ → ℚ) (cache : List CachedPlace)
    (adminSetting : AdminSetting) (venues : List VenueRec) (votes : List VoteRow)
    (userId venueId : String) (dtoIsOpen : Bool) (dtoLat dtoLng : ℚ) (now : Int)
    (freshId : String) :
    List VenueRec × List VoteRow × Option VoteError :=
  if isGoogleVenueId venueId then
    let googlePlaceId := stripGoogleTag venueId
    match venues.find? (fun v => v.googlePlaceId == some googlePlaceId) with
    | some venue =>
      proceedVote calcDist adminSetting venues votes userId dtoIsOpen dtoLat dtoLng now venue
    | none =>
      match cache.find? (fun p => p.placeId == googlePlaceId) with
      | none => (venues, votes, some VoteError.notFound)
      | some googlePlace =>
        let venue := promotedVenue freshId googlePlace
        proceedVote calcDist adminSetting (venues ++ [venue]) votes userId dtoIsOpen
          dtoLat dtoLng now venue
  else
    match venues.find? (fun v => v.id == venueId) with
    | none => (venues, votes, some VoteError.notFound)
    | some venue =>
      proceedVote calcDist adminSetting venues votes userId dtoIsOpen dtoLat dtoLng now venue

end VenueBackend

namespace VenueBackend

/-! ## Theorems about the availability resolver -/

/-- C1 (amended): for every internal venue with no declared operating hours
(`startTime` or `endTime` null), `getVenueStatus` returns CLOSED
unconditionally — the empty period list fails the strict hours gate before
any vote is tallied — and, being a total function, it never crashes. -/
theorem noHours_unconditionally_closed (venue : Venue)
    (h : venue.startTime = none ∨ venue.endTime = none)
    (currentDay currentTime : Nat) (nowEt : Int) :
    getVenueStatus venue currentDay currentTime nowEt = VenueStatusEnum.CLOSED := by
  have hp : convertDBHoursToPeriods venue = [] := by
    unfold convertDBHoursToPeriods
    rcases h with h | h
    · rw [h]
    · rw [h]; rcases venue.startTime with _ | s <;> rfl
  simp [getVenueStatus, hp, isWithinPeriods]

/-- Witness for C1 (amended): a venue with null hours, an empty closed-day
set and one open vote after the boundary still resolves to CLOSED. -/
theorem noHours_unconditionally_closed_witness :
    getVenueStatus ⟨none, some 2200, ["monday"], [⟨true, 9500⟩]⟩ 3 1200 10000
      = VenueStatusEnum.CLOSED :=
  noHours_unconditionally_closed _ (Or.inl rfl) 3 1200 10000

/-- Counterexample to C1 as stated: a venue with no declared hours and one
open vote at or after the boundary (so the claimed tally would give
`openVotes = 1 ≥ 0 = closedVotes`, hence OPEN) nevertheless resolves to
CLOSED: the resolver returns CLOSED unconditionally for such venues. -/
theorem noHours_tally_counterexample :
    (todayVotes ⟨none, none, [], [⟨true, 9500⟩]⟩ 10000).length = 1 ∧
    ((todayVotes ⟨none, none, [], [⟨true, 9500⟩]⟩ 10000).filter (fun v => v.isOpen)).length = 1 ∧
    ((todayVotes ⟨none, none, [], [⟨true, 9500⟩]⟩ 10000).filter (fun v => !v.isOpen)).length = 0 ∧
    getVenueStatus ⟨none, none, [], [⟨true, 9500⟩]⟩ 3 1200 10000 = VenueStatusEnum.CLOSED := by
  decide

/-- C2 (amended): for every venue whose operating-hours gate passes, if at
least one vote exists since the daily reset boundary then the resolver
returns OPEN exactly when `openVotes ≥ closedVotes` and CLOSED otherwise
(ties favor OPEN). -/
theorem gatePass_vote_majority (venue : Venue) (currentDay currentTime : Nat) (nowEt : Int)
    (hgate : isWithinPeriods (convertDBHoursToPeriods venue) currentDay currentTime = true)
    (hvotes : 0 < (todayVotes venue nowEt).length) :
    (getVenueStatus venue currentDay currentTime nowEt = VenueStatusEnum.OPEN ↔
      ((todayVotes venue nowEt).filter (fun v => !v.isOpen)).length ≤
        ((todayVotes venue nowEt).filter (fun v => v.isOpen)).length) ∧
    (getVenueStatus venue currentDay currentTime nowEt = VenueStatusEnum.CLOSED ↔
      ((todayVotes venue nowEt).filter (fun v => v.isOpen)).length <
        ((todayVotes venue nowEt).filter (fun v => !v.isOpen)).length) := by
  by_cases hc : ((todayVotes venue nowEt).filter (fun v => !v.isOpen)).length ≤
      ((todayVotes venue nowEt).filter (fun v => v.isOpen)).length
  · simp [getVenueStatus, hgate, hvotes, hc] <;> omega
  · simp [getVenueStatus, hgate, hvotes, hc] <;> omega

/-- Witness for C2: a venue within hours with one open and one closed vote
since the boundary (a tie) resolves to OPEN. -/
theorem gatePass_vote_majority_witness :
    getVenueStatus ⟨some 900, some 1700, [], [⟨true, 9500⟩, ⟨false, 9520⟩]⟩ 3 1200 10000
      = VenueStatusEnum.OPEN :=
  ((gatePass_vote_majority ⟨some 900, some 1700, [], [⟨true, 9500⟩, ⟨false, 9520⟩]⟩
      3 1200 10000 (by decide) (by decide)).1).mpr (by decide)

/-- Counterexample to C2 as stated: the claim also covers venues whose
hours are undeclared, but such a venue with a one-open/one-closed tie since
the boundary (claimed: OPEN) resolves to CLOSED — the empty period list
fails the gate before the tally is consulted. -/
theorem undeclared_hours_tie_counterexample :
    (todayVotes ⟨none, none, [], [⟨true, 9500⟩, ⟨false, 9520⟩]⟩ 10000).length = 2 ∧
    ((todayVotes ⟨none, none, [], [⟨true, 9500⟩, ⟨false, 9520⟩]⟩ 10000).filter
        (fun v => v.isOpen)).length = 1 ∧
    ((todayVotes ⟨none, none, [], [⟨true, 9500⟩, ⟨false, 9520⟩]⟩ 10000).filter
        (fun v => !v.isOpen)).length = 1 ∧
    getVenueStatus ⟨none, none, [], [⟨true, 9500⟩, ⟨false, 9520⟩]⟩ 3 1200 10000
      = VenueStatusEnum.CLOSED := by
  decide

/-- C3: for every venue with declared operating-hours data, if the hours
gate evaluates to false for the current venue-local time then the resolver
returns CLOSED regardless of the vote tally (the votes are never read). -/
theorem gateFail_overrides_votes (venue : Venue) (s e : Nat)
    (hs : venue.startTime = some s) (he : venue.endTime = some e)
    (currentDay currentTime : Nat) (nowEt : Int)
    (hgate : isWithinPeriods (convertDBHoursToPeriods venue) currentDay currentTime = false) :
    getVenueStatus venue currentDay currentTime nowEt = VenueStatusEnum.CLOSED := by
  simp [getVenueStatus, hgate]

/-- Witness for C3: a venue declared 09:00–17:00, outside its window at
18:00, with an all-open vote tally since the boundary, resolves CLOSED. -/
theorem gateFail_overrides_votes_witness :
    ((⟨some 900, some 1700, [], [⟨true, 9500⟩, ⟨true, 9520⟩]⟩ : Venue).votes.all
        (fun v => v.isOpen)) = true ∧
    getVenueStatus ⟨some 900, some 1700, [], [⟨true, 9500⟩, ⟨true, 9520⟩]⟩ 2 1800 10000
      = VenueStatusEnum.CLOSED :=
  ⟨by decide,
   gateFail_overrides_votes ⟨some 900, some 1700, [], [⟨true, 9500⟩, ⟨true, 9520⟩]⟩
     900 1700 rfl rfl 2 1800 10000 (by decide)⟩

/-- C4: the daily reset boundary is the most recent occurrence of the
reset hour (08:00, minute 480 of the America/New_York civil day) at or
before "now": it is at the reset minute of some day, at or before "now",
within a day of "now", and no later instant at the reset minute lies at or
before "now"; and exactly the votes with `createdAt ≥ boundary` are
counted toward today's tally while strictly older votes are ignored. -/
theorem voteDayStart_most_recent_reset (nowEt : Int) (venue : Venue) :
    voteDayStart nowEt % 1440 = 480 ∧
    voteDayStart nowEt ≤ nowEt ∧
    nowEt < voteDayStart nowEt + 1440 ∧
    (∀ b : Int, b % 1440 = 480 → b ≤ nowEt → b ≤ voteDayStart nowEt) ∧
    (∀ v : VoteV, v ∈ todayVotes venue nowEt ↔
      v ∈ venue.votes ∧ voteDayStart nowEt ≤ v.createdAt) := by
  refine ⟨?_, ?_, ?_, ?_, ?_⟩
  · simp only [voteDayStart]
    split
    · have h1 : nowEt - nowEt % 1440 + 480 - 1440 = 480 + 1440 * (nowEt / 1440 - 1) := by omega
      rw [h1, Int.add_mul_emod_self_left]; decide
    · have h1 : nowEt - nowEt % 1440 + 480 = 480 + 1440 * (nowEt / 1440) := by omega
      rw [h1, Int.add_mul_emod_self_left]; decide
  · simp only [voteDayStart]; split <;> omega
  · simp only [voteDayStart]; split <;> omega
  · intro b hb hble; simp only [voteDayStart]; split <;> omega
  · intro v; simp [todayVotes, List.mem_filter]

/-- C6: for a venue whose declared window has start > end (overnight) and
no closed days, the operating-hours gate holds exactly when the current
venue-local time-of-day is ≥ start or ≤ end. -/
theorem overnight_window_wrap (s e currentDay currentTime : Nat)
    (hd : currentDay < 7) (hse : e < s) :
    isWithinPeriods (convertDBHoursToPeriods ⟨some s, some e, [], []⟩)
        currentDay currentTime = true ↔
      (s ≤ currentTime ∨ currentTime ≤ e) := by
  have hp : convertDBHoursToPeriods ⟨some s, some e, [], []⟩ =
      [⟨⟨0, s⟩, some ⟨1, e⟩⟩, ⟨⟨1, s⟩, some ⟨2, e⟩⟩, ⟨⟨2, s⟩, some ⟨3, e⟩⟩,
       ⟨⟨3, s⟩, some ⟨4, e⟩⟩, ⟨⟨4, s⟩, some ⟨5, e⟩⟩, ⟨⟨5, s⟩, some ⟨6, e⟩⟩,
       ⟨⟨6, s⟩, some ⟨0, e⟩⟩] := by
    simp [convertDBHoursToPeriods, hse]
  rw [hp]
  interval_cases currentDay <;> simp [isWithinPeriods] <;> omega

/-- Witness for C6: window 22:00–04:00 is within-hours at 23:30 and at
02:00, and outside-hours at 12:00. -/
theorem overnight_window_wrap_witness :
    isWithinPeriods (convertDBHoursToPeriods ⟨some 2200, some 400, [], []⟩) 5 2330 = true ∧
    isWithinPeriods (convertDBHoursToPeriods ⟨some 2200, some 400, [], []⟩) 5 200 = true ∧
    isWithinPeriods (convertDBHoursToPeriods ⟨some 2200, some 400, [], []⟩) 5 1200 = false := by
  refine ⟨?_, ?_, ?_⟩
  · exact (overnight_window_wrap 2200 400 5 2330 (by decide) (by decide)).mpr (Or.inl (by decide))
  · exact (overnight_window_wrap 2200 400 5 200 (by decide) (by decide)).mpr (Or.inr (by decide))
  · rcases h : isWithinPeriods (convertDBHoursToPeriods ⟨some 2200, some 400, [], []⟩) 5 1200 with _ | _
    · rfl
    · exact absurd ((overnight_window_wrap 2200 400 5 1200 (by decide) (by decide)).mp h)
        (by decide)

/-! ## Theorems about the aggregation pipeline -/

/-- The filter-then-map identifier extraction of step 4 is the
`filterMap` of the `googlePlaceId` field. -/
theorem dbGooglePlaceIds_eq_filterMap (dbVenues : List DbVenue) :
    dbGooglePlaceIds dbVenues = dbVenues.filterMap (fun v => v.googlePlaceId) := by
  unfold dbGooglePlaceIds
  induction dbVenues with
  | nil => rfl
  | cons v vs ih =>
    rcases hv : v.googlePlaceId with _ | g <;>
      simp [List.filter_cons, List.filterMap_cons, hv] <;> exact ih

/-- Membership characterization of the merged (pre-sort) list. -/
theorem mem_mergedVenues {dbVenues : List DbVenue} {googlePlaces : List GPlace}
    {item : VenueItem} :
    item ∈ mergedVenues dbVenues googlePlaces ↔
      (∃ v ∈ dbVenues, item = processDbVenue v) ∨
      (∃ p ∈ googlePlaces, item = transformGooglePlaceToVenue p ∧
        p.placeId ∉ dbGooglePlaceIds dbVenues ∧ p.category ∈ allowedCategories) := by
  simp only [mergedVenues, List.mem_append, List.mem_map, List.mem_filter]
  constructor
  · rintro (⟨v, hv, rfl⟩ | ⟨⟨p, ⟨hp, hq⟩, rfl⟩, hcat⟩)
    · exact Or.inl ⟨v, hv, rfl⟩
    · refine Or.inr ⟨p, hp, rfl, ?_, ?_⟩
      · simpa using hq
      · simpa [transformGooglePlaceToVenue] using hcat
  · rintro (⟨v, hv, rfl⟩ | ⟨p, hp, rfl, hnotin, hcat⟩)
    · exact Or.inl ⟨v, hv, rfl⟩
    · exact Or.inr ⟨⟨p, ⟨hp, by simpa using hnotin⟩, rfl⟩,
        by simpa [transformGooglePlaceToVenue] using hcat⟩

/-- Every item of a returned page comes from the merged list. -/
theorem mem_of_mem_page {dbVenues : List DbVenue} {googlePlaces : List GPlace}
    {page limit : Nat} {item : VenueItem}
    (h : item ∈ getVenuesByLocation dbVenues googlePlaces page limit) :
    item ∈ mergedVenues dbVenues googlePlaces := by
  simp only [getVenuesByLocation] at h
  have h1 := (List.take_sublist _ _).subset h
  have h2 := (List.drop_sublist _ _).subset h1
  exact List.mem_mergeSort.mp h2

/-- C7: each returned page is sorted ascending by the distance field, so
for all adjacent pairs, `distance[i] ≤ distance[i+1]`. -/
theorem page_sorted_by_distance (dbVenues : List DbVenue) (googlePlaces : List GPlace)
    (page limit : Nat) :
    (getVenuesByLocation dbVenues googlePlaces page limit).Pairwise
      (fun a b => a.distance ≤ b.distance) := by
  have hs : ((mergedVenues dbVenues googlePlaces).mergeSort
      (fun a b => decide (a.distance ≤ b.distance))).Pairwise
      (fun a b => (decide (a.distance ≤ b.distance)) = true) :=
    List.sorted_mergeSort
      (fun a b c hab hbc => by
        simp only [decide_eq_true_eq] at *; omega)
      (fun a b => by
        simp only [Bool.or_eq_true, decide_eq_true_eq]; omega)
      (mergedVenues dbVenues googlePlaces)
  have hp : ((mergedVenues dbVenues googlePlaces).mergeSort
      (fun a b => decide (a.distance ≤ b.distance))).Pairwise
      (fun a b => a.distance ≤ b.distance) :=
    hs.imp (fun h => by simpa using h)
  simp only [getVenuesByLocation]
  exact List.Pairwise.sublist ((List.take_sublist _ _).trans (List.drop_sublist _ _)) hp

/-- The external identifiers of the merged list are pairwise distinct,
given the store's unique constraint on `googlePlaceId` and provider
results with distinct identifiers. -/
theorem mergedVenues_gids_nodup {dbVenues : List DbVenue} {googlePlaces : List GPlace}
    (hdb : (dbVenues.filterMap (fun v => v.googlePlaceId)).Nodup)
    (hg : (googlePlaces.map (fun p => p.placeId)).Nodup) :
    ((mergedVenues dbVenues googlePlaces).filterMap (fun item => item.gid)).Nodup := by
  unfold mergedVenues
  rw [List.filterMap_append]
  apply List.Nodup.append
  · rw [List.filterMap_map]
    exact hdb
  · have hsub : ((((googlePlaces.filter
        (fun place => !((dbGooglePlaceIds dbVenues).contains place.placeId))).map
          transformGooglePlaceToVenue).filter
            (fun v => allowedCategories.contains v.category)).filterMap
              (fun item => item.gid)).Sublist (googlePlaces.map (fun p => p.placeId)) := by
      have h0 : ((((googlePlaces.filter
          (fun place => !((dbGooglePlaceIds dbVenues).contains place.placeId))).map
            transformGooglePlaceToVenue).filter
              (fun v => allowedCategories.contains v.category))).Sublist
          ((googlePlaces.filter
            (fun place => !((dbGooglePlaceIds dbVenues).contains place.placeId))).map
              transformGooglePlaceToVenue) :=
        List.filter_sublist _
      have h1 := List.Sublist.filterMap (fun item : VenueItem => item.gid) h0
      have h2 : (((googlePlaces.filter
          (fun place => !((dbGooglePlaceIds dbVenues).contains place.placeId))).map
            transformGooglePlaceToVenue).filterMap (fun item => item.gid))
          = (googlePlaces.filter
              (fun place => !((dbGooglePlaceIds dbVenues).contains place.placeId))).map
                (fun p => p.placeId) := by
        rw [List.filterMap_map]
        have hcomp : ((fun item : VenueItem => item.gid) ∘ transformGooglePlaceToVenue)
            = some ∘ (fun p : GPlace => p.placeId) := rfl
        rw [hcomp, List.filterMap_eq_map]
      rw [h2] at h1
      exact h1.trans (List.Sublist.map _ (List.filter_sublist _))
    exact List.Nodup.sublist hsub hg
  · intro g hg1 hg2
    rcases List.mem_filterMap.mp hg1 with ⟨itemA, hA, hAgid⟩
    rcases List.mem_filterMap.mp hg2 with ⟨itemB, hB, hBgid⟩
    rcases List.mem_map.mp hA with ⟨v, hv, rfl⟩
    rcases List.mem_filter.mp hB with ⟨hBraw, _⟩
    rcases List.mem_map.mp hBraw with ⟨p, hp, rfl⟩
    rcases List.mem_filter.mp hp with ⟨_, hq⟩
    have hid : p.placeId = g := by
      simpa [transformGooglePlaceToVenue] using hBgid
    have hgin : g ∈ dbGooglePlaceIds dbVenues := by
      rw [dbGooglePlaceIds_eq_filterMap]
      exact List.mem_filterMap.mpr ⟨v, hv, hAgid⟩
    rw [hid] at hq
    simp at hq
    exact hq hgin

/-- C5: for every coordinate query, no two items of the returned page
share an external identifier, and every returned item whose identifier is
carried by some internal venue is that internal record, with
`source: 'database'` — the colliding cached snapshot was dropped. -/
theorem dedup_internal_wins (dbVenues : List DbVenue) (googlePlaces : List GPlace)
    (page limit : Nat)
    (hdb : (dbVenues.filterMap (fun v => v.googlePlaceId)).Nodup)
    (hg : (googlePlaces.map (fun p => p.placeId)).Nodup) :
    ((getVenuesByLocation dbVenues googlePlaces page limit).filterMap
      (fun item => item.gid)).Nodup ∧
    ∀ item ∈ getVenuesByLocation dbVenues googlePlaces page limit, ∀ g : String,
      item.gid = some g → g ∈ dbGooglePlaceIds dbVenues →
      item.source = Source.database ∧
        ∃ v ∈ dbVenues, v.googlePlaceId = some g ∧ item = processDbVenue v := by
  constructor
  · have hmerged := mergedVenues_gids_nodup hdb hg
    have hperm : (((mergedVenues dbVenues googlePlaces).mergeSort
        (fun a b => decide (a.distance ≤ b.distance))).filterMap (fun item => item.gid)).Perm
        ((mergedVenues dbVenues googlePlaces).filterMap (fun item => item.gid)) :=
      (List.mergeSort_perm _ _).filterMap _
    have hsorted : (((mergedVenues dbVenues googlePlaces).mergeSort
        (fun a b => decide (a.distance ≤ b.distance))).filterMap
          (fun item => item.gid)).Nodup :=
      hperm.nodup_iff.mpr hmerged
    have hsub := List.Sublist.filterMap (fun item : VenueItem => item.gid)
      ((List.take_sublist limit (((mergedVenues dbVenues googlePlaces).mergeSort
          (fun a b => decide (a.distance ≤ b.distance))).drop ((page - 1) * limit))).trans
        (List.drop_sublist ((page - 1) * limit) ((mergedVenues dbVenues googlePlaces).mergeSort
          (fun a b => decide (a.distance ≤ b.distance)))))
    simp only [getVenuesByLocation]
    exact List.Nodup.sublist hsub hsorted
  · intro item hitem g hgid hgdb
    rcases mem_mergedVenues.mp (mem_of_mem_page hitem) with ⟨v, hv, rfl⟩ | ⟨p, _, rfl, hnotin, _⟩
    · refine ⟨rfl, v, hv, ?_, rfl⟩
      simpa [processDbVenue] using hgid
    · exact absurd hgdb (by
        have : p.placeId = g := by simpa [transformGooglePlaceToVenue] using hgid
        rw [← this] at *
        exact hnotin)

/-- Witness for C5: a concrete query with one internal venue carrying an
external identifier and one colliding plus one fresh cached snapshot. -/
theorem dedup_internal_wins_witness :
    ((([⟨"v1", some "g1", "BAR", 3⟩] : List DbVenue).filterMap
        (fun v => v.googlePlaceId)).Nodup ∧
      (([⟨"g1", "BAR", 1⟩, ⟨"g2", "BAR", 2⟩] : List GPlace).map
        (fun p => p.placeId)).Nodup) ∧
    ((((getVenuesByLocation [⟨"v1", some "g1", "BAR", 3⟩]
        [⟨"g1", "BAR", 1⟩, ⟨"g2", "BAR", 2⟩] 1 20).filterMap
          (fun item => item.gid)).Nodup) ∧
      ∀ item ∈ getVenuesByLocation [⟨"v1", some "g1", "BAR", 3⟩]
          [⟨"g1", "BAR", 1⟩, ⟨"g2", "BAR", 2⟩] 1 20, ∀ g : String,
        item.gid = some g → g ∈ dbGooglePlaceIds [⟨"v1", some "g1", "BAR", 3⟩] →
        item.source = Source.database ∧
          ∃ v ∈ [(⟨"v1", some "g1", "BAR", 3⟩ : DbVenue)],
            v.googlePlaceId = some g ∧ item = processDbVenue v) :=
  ⟨⟨by decide, by decide⟩,
   dedup_internal_wins [⟨"v1", some "g1", "BAR", 3⟩]
     [⟨"g1", "BAR", 1⟩, ⟨"g2", "BAR", 2⟩] 1 20 (by decide) (by decide)⟩

/-- C10: every external (Google-sourced) item of any returned page has a
category in the fixed whitelist; a surviving cached snapshot whose
category is outside the whitelist is excluded from the merged list; and
every internal venue is placed in the merged list regardless of its
category. -/
theorem external_category_whitelist (dbVenues : List DbVenue) (googlePlaces : List GPlace)
    (page limit : Nat) :
    (∀ item ∈ getVenuesByLocation dbVenues googlePlaces page limit,
      item.source = Source.google → item.category ∈ allowedCategories) ∧
    (∀ p ∈ googlePlaces, p.category ∉ allowedCategories →
      transformGooglePlaceToVenue p ∉ mergedVenues dbVenues googlePlaces) ∧
    (∀ v ∈ dbVenues, processDbVenue v ∈ mergedVenues dbVenues googlePlaces) := by
  refine ⟨?_, ?_, ?_⟩
  · intro item hitem hsrc
    rcases mem_mergedVenues.mp (mem_of_mem_page hitem) with ⟨v, hv, rfl⟩ | ⟨p, _, rfl, _, hcat⟩
    · exact absurd hsrc (by simp [processDbVenue])
    · simpa [transformGooglePlaceToVenue] using hcat
  · intro p _ hcat hmem
    rcases mem_mergedVenues.mp hmem with ⟨v, _, hv⟩ | ⟨q, _, heq, _, hqcat⟩
    · simp [processDbVenue, transformGooglePlaceToVenue] at hv
    · have : p.category = q.category := by
        have := congrArg VenueItem.category heq
        simpa [transformGooglePlaceToVenue] using this
      rw [this] at hcat
      exact hcat hqcat
  · intro v hv
    exact mem_mergedVenues.mpr (Or.inl ⟨v, hv, rfl⟩)

/-! ## Theorems about vote submission -/

/-- The post-resolution tail never changes the venue table it was handed:
promotion persists even when the vote itself is rejected (or the checks
are disabled). -/
theorem proceedVote_fst (calcDist : ℚ → ℚ → ℚ → ℚ → ℚ) (adminSetting : AdminSetting)
    (venues' : List VenueRec) (votes : List VoteRow) (userId : String)
    (dtoIsOpen : Bool) (dtoLat dtoLng : ℚ) (now : Int) (venue : VenueRec) :
    (proceedVote calcDist adminSetting venues' votes userId dtoIsOpen dtoLat dtoLng
      now venue).1 = venues' := by
  simp only [proceedVote]
  split
  · rfl
  · split
    · split <;> rfl
    · rfl

/-- C8: for a resolved venue, with the cooldown policy switch
(`shouldValidateTime`) enabled and the proximity gate passing (switch off
or within the 10-mile radius), a vote request finding an earlier vote of
the same user on the same venue inside the 30-second cooldown window is
rejected with a 429-class error carrying the remaining wait in seconds
and leaves the ledger unchanged; when every such earlier vote lies
strictly outside the window, the vote is appended to the ledger and no
error is raised. -/
theorem cooldown_enforcement (calcDist : ℚ → ℚ → ℚ → ℚ → ℚ) (cache : List CachedPlace)
    (adminSetting : AdminSetting) (venues : List VenueRec) (votes : List VoteRow)
    (userId venueId : String) (dtoIsOpen : Bool) (dtoLat dtoLng : ℚ) (now : Int)
    (freshId : String) (venue : VenueRec)
    (hng : isGoogleVenueId venueId = false)
    (hfind : venues.find? (fun v => v.id == venueId) = some venue)
    (htime : adminSetting.shouldValidateTime = true)
    (hprox : (adminSetting.shouldValidateLocation
      && decide (MAX_DISTANCE_MILES
        < calcDist dtoLat dtoLng venue.latitude venue.longitude)) = false) :
    ((∃ rv ∈ votes, rv.userId = userId ∧ rv.venueId = venue.id ∧
        now - VOTE_COOLDOWN_MS ≤ rv.createdAt) →
      ∃ s : Int,
        voteForVenue calcDist cache adminSetting venues votes userId venueId dtoIsOpen
            dtoLat dtoLng now freshId = (venues, votes, some (VoteError.cooldown s)) ∧
        (VoteError.cooldown s).statusCode = 429) ∧
    ((∀ rv ∈ votes, rv.userId = userId → rv.venueId = venue.id →
        rv.createdAt < now - VOTE_COOLDOWN_MS) →
      voteForVenue calcDist cache adminSetting venues votes userId venueId dtoIsOpen
          dtoLat dtoLng now freshId
        = (venues, votes ++ [⟨userId, venue.id, dtoIsOpen, now⟩], none)) := by
  have hred : voteForVenue calcDist cache adminSetting venues votes userId venueId
      dtoIsOpen dtoLat dtoLng now freshId
      = proceedVote calcDist adminSetting venues votes userId dtoIsOpen dtoLat dtoLng
        now venue := by
    simp [voteForVenue, hng, hfind]
  rw [hred]
  simp only [proceedVote, hprox, htime, Bool.false_eq_true, if_false, if_true]
  constructor
  · rintro ⟨rv, hrv, h1, h2, h3⟩
    rcases hfw : votes.find? (fun v => v.userId == userId && v.venueId == venue.id
        && decide (now - VOTE_COOLDOWN_MS ≤ v.createdAt)) with _ | rv'
    · exfalso
      exact absurd (by simp [h1, h2, h3] : (rv.userId == userId && rv.venueId == venue.id
          && decide (now - VOTE_COOLDOWN_MS ≤ rv.createdAt)) = true)
        (by simpa using List.find?_eq_none.mp hfw rv hrv)
    · rw [hfw]
      exact ⟨timeLeftSeconds rv'.createdAt now, rfl, rfl⟩
  · intro hall
    have hfw : votes.find? (fun v => v.userId == userId && v.venueId == venue.id
        && decide (now - VOTE_COOLDOWN_MS ≤ v.createdAt)) = none := by
      apply List.find?_eq_none.mpr
      intro x hx hpx
      simp only [Bool.and_eq_true, beq_iff_eq, decide_eq_true_eq] at hpx
      exact absurd hpx.2 (not_le.mpr (hall x hx hpx.1.1 hpx.1.2))
    rw [hfw]

/-- Witness for C8: with both switches on and the user at the venue, a
vote at time 0 blocks a second vote by the same user at T + W/2 = 15
seconds (429, ledger unchanged), and with only a vote strictly older
than 30 seconds the new vote is appended. -/
theorem cooldown_enforcement_witness :
    (isGoogleVenueId ("v1") = false ∧
      ([(⟨"v1", "Bar", none, "BAR", "BAR", "loc", 0, 0⟩ : VenueRec)].find?
        (fun v => v.id == "v1")) = some ⟨"v1", "Bar", none, "BAR", "BAR", "loc", 0, 0⟩ ∧
      (⟨true, true⟩ : AdminSetting).shouldValidateTime = true ∧
      ((⟨true, true⟩ : AdminSetting).shouldValidateLocation
        && decide (MAX_DISTANCE_MILES
          < (fun (_ _ _ _ : ℚ) => (0:ℚ)) 0 0
              (⟨"v1", "Bar", none, "BAR", "BAR", "loc", 0, 0⟩ : VenueRec).latitude
              (⟨"v1", "Bar", none, "BAR", "BAR", "loc", 0, 0⟩ : VenueRec).longitude))
        = false) ∧
    (((∃ rv ∈ [(⟨"u1", "v1", true, 0⟩ : VoteRow)], rv.userId = "u1" ∧ rv.venueId = "v1" ∧
        (15000 : Int) - VOTE_COOLDOWN_MS ≤ rv.createdAt) →
      ∃ s : Int,
        voteForVenue (fun _ _ _ _ => 0) [] ⟨true, true⟩
            [⟨"v1", "Bar", none, "BAR", "BAR", "loc", 0, 0⟩]
            [⟨"u1", "v1", true, 0⟩] "u1" "v1" false 0 0 15000 "f"
          = ([⟨"v1", "Bar", none, "BAR", "BAR", "loc", 0, 0⟩], [⟨"u1", "v1", true, 0⟩],
              some (VoteError.cooldown s)) ∧
        (VoteError.cooldown s).statusCode = 429) ∧
    ((∀ rv ∈ [(⟨"u1", "v1", true, 0⟩ : VoteRow)], rv.userId = "u1" → rv.venueId = "v1" →
        rv.createdAt < (15000 : Int) - VOTE_COOLDOWN_MS) →
      voteForVenue (fun _ _ _ _ => 0) [] ⟨true, true⟩
          [⟨"v1", "Bar", none, "BAR", "BAR", "loc", 0, 0⟩]
          [⟨"u1", "v1", true, 0⟩] "u1" "v1" false 0 0 15000 "f"
        = ([⟨"v1", "Bar", none, "BAR", "BAR", "loc", 0, 0⟩],
            [⟨"u1", "v1", true, 0⟩] ++ [⟨"u1", "v1", false, 15000⟩], none))) :=
  ⟨⟨by decide, by decide, by decide, by decide⟩,
   cooldown_enforcement (fun _ _ _ _ => 0) [] ⟨true, true⟩
     [⟨"v1", "Bar", none, "BAR", "BAR", "loc", 0, 0⟩]
     [⟨"u1", "v1", true, 0⟩] "u1" "v1" false 0 0 15000 "f"
     ⟨"v1", "Bar", none, "BAR", "BAR", "loc", 0, 0⟩ (by decide) (by decide)
     (by decide) (by decide)⟩

/-- C9: promotion is idempotent.  For a `google_`-tagged id whose place
is in the cache but not yet in the venue table, the first vote appends
exactly one promoted venue row (whatever the vote's own outcome), and a
second vote on the same id resolves to that row through the unique
`googlePlaceId` lookup and appends nothing: afterwards exactly one venue
record carries the external identifier. -/
theorem promotion_idempotent (calcDist : ℚ → ℚ → ℚ → ℚ → ℚ) (cache : List CachedPlace)
    (adminSetting : AdminSetting) (venues : List VenueRec) (votes : List VoteRow)
    (userId venueId : String) (o1 o2 : Bool) (lat1 lng1 lat2 lng2 : ℚ) (t1 t2 : Int)
    (fresh1 fresh2 : String) (gp : CachedPlace)
    (st1 : List VenueRec × List VoteRow × Option VoteError)
    (hpre : isGoogleVenueId venueId = true)
    (hnone : ∀ v ∈ venues, v.googlePlaceId ≠ some (stripGoogleTag venueId))
    (hc : cache.find? (fun p => p.placeId == stripGoogleTag venueId) = some gp)
    (h1 : voteForVenue calcDist cache adminSetting venues votes userId venueId o1
      lat1 lng1 t1 fresh1 = st1) :
    st1.1 = venues ++ [promotedVenue fresh1 gp] ∧
    (voteForVenue calcDist cache adminSetting st1.1 st1.2.1 userId venueId o2
      lat2 lng2 t2 fresh2).1 = st1.1 ∧
    (st1.1.filter
      (fun v => v.googlePlaceId == some (stripGoogleTag venueId))).length = 1 := by
  have hgpid : gp.placeId = stripGoogleTag venueId := by
    have := List.find?_some hc
    simpa using this
  have hfn : venues.find?
      (fun v => v.googlePlaceId == some (stripGoogleTag venueId)) = none := by
    apply List.find?_eq_none.mpr
    intro v hv hpv
    exact absurd (by simpa using hpv) (hnone v hv)
  have hst1 : st1.1 = venues ++ [promotedVenue fresh1 gp] := by
    rw [← h1]
    simp only [voteForVenue, hpre, if_true, hfn, hc]
    exact proceedVote_fst calcDist adminSetting (venues ++ [promotedVenue fresh1 gp])
      votes userId o1 lat1 lng1 t1 (promotedVenue fresh1 gp)
  refine ⟨hst1, ?_, ?_⟩
  · have hfn2 : st1.1.find?
        (fun v => v.googlePlaceId == some (stripGoogleTag venueId))
        = some (promotedVenue fresh1 gp) := by
      rw [hst1, List.find?_append, hfn]
      simp [promotedVenue, hgpid]
    simp only [voteForVenue, hpre, if_true, hfn2]
    exact proceedVote_fst calcDist adminSetting st1.1 st1.2.1 userId o2 lat2 lng2 t2
      (promotedVenue fresh1 gp)
  · rw [hst1, List.filter_append]
    have hl : venues.filter
        (fun v => v.googlePlaceId == some (stripGoogleTag venueId)) = [] := by
      apply List.filter_eq_nil_iff.mpr
      intro v hv hpv
      exact absurd (by simpa using hpv) (hnone v hv)
    have hr : [promotedVenue fresh1 gp].filter
        (fun v => v.googlePlaceId == some (stripGoogleTag venueId))
        = [promotedVenue fresh1 gp] := by
      simp [promotedVenue, hgpid]
    rw [hl, hr]
    rfl

/-- Witness for C9: two successive votes on `google_g1`, starting from an
empty venue table and a cache holding `g1`, leave exactly one venue
record with that external identifier. -/
theorem promotion_idempotent_witness :
    (isGoogleVenueId ("google_g1") = true ∧
      (∀ v ∈ ([] : List VenueRec),
        v.googlePlaceId ≠ some (stripGoogleTag ("google_g1"))) ∧
      ([(⟨"g1", "Club", "NIGHT CLUB", "NIGHT CLUB", "loc", 0, 0⟩ : CachedPlace)].find?
        (fun p => p.placeId == stripGoogleTag ("google_g1")))
        = some ⟨"g1", "Club", "NIGHT CLUB", "NIGHT CLUB", "loc", 0, 0⟩) ∧
    ((voteForVenue (fun _ _ _ _ => 0)
        [⟨"g1", "Club", "NIGHT CLUB", "NIGHT CLUB", "loc", 0, 0⟩] ⟨true, true⟩ [] []
        "u1" "google_g1" true 0 0 0 "f1").1
      = [] ++ [promotedVenue "f1" ⟨"g1", "Club", "NIGHT CLUB", "NIGHT CLUB", "loc", 0, 0⟩] ∧
    (voteForVenue (fun _ _ _ _ => 0)
        [⟨"g1", "Club", "NIGHT CLUB", "NIGHT CLUB", "loc", 0, 0⟩] ⟨true, true⟩
        (voteForVenue (fun _ _ _ _ => 0)
          [⟨"g1", "Club", "NIGHT CLUB", "NIGHT CLUB", "loc", 0, 0⟩] ⟨true, true⟩ [] []
          "u1" "google_g1" true 0 0 0 "f1").1
        (voteForVenue (fun _ _ _ _ => 0)
          [⟨"g1", "Club", "NIGHT CLUB", "NIGHT CLUB", "loc", 0, 0⟩] ⟨true, true⟩ [] []
          "u1" "google_g1" true 0 0 0 "f1").2.1
        "u1" "google_g1" false 0 0 10000 "f2").1
      = (voteForVenue (fun _ _ _ _ => 0)
          [⟨"g1", "Club", "NIGHT CLUB", "NIGHT CLUB", "loc", 0, 0⟩] ⟨true, true⟩ [] []
          "u1" "google_g1" true 0 0 0 "f1").1 ∧
    ((voteForVenue (fun _ _ _ _ => 0)
        [⟨"g1", "Club", "NIGHT CLUB", "NIGHT CLUB", "loc", 0, 0⟩] ⟨true, true⟩ [] []
        "u1" "google_g1" true 0 0 0 "f1").1.filter
      (fun v => v.googlePlaceId == some (stripGoogleTag ("google_g1")))).length = 1) :=
  ⟨⟨by decide, by decide, by decide⟩,
   promotion_idempotent (fun _ _ _ _ => 0)
     [⟨"g1", "Club", "NIGHT CLUB", "NIGHT CLUB", "loc", 0, 0⟩] ⟨true, true⟩ [] []
     "u1" "google_g1" true false 0 0 0 0 0 10000 "f1" "f2"
     ⟨"g1", "Club", "NIGHT CLUB", "NIGHT CLUB", "loc", 0, 0⟩
     (voteForVenue (fun _ _ _ _ => 0)
       [⟨"g1", "Club", "NIGHT CLUB", "NIGHT CLUB", "loc", 0, 0⟩] ⟨true, true⟩ [] []
       "u1" "google_g1" true 0 0 0 "f1")
     (by decide) (by decide) (by decide) rfl⟩

end VenueBackend
